import Mathlib

/-!
Verification of the jam-track audio pipeline of the fortnite-item-shop-scraper
repository.

The definitions below are a shallow embedding of the two source files that
implement the pipeline:

* `src/features/jam-tracks/audio-processor.service.ts`
  (`parsePlaylistXML`, `fetchAudioSegments`), and
* `src/features/jam-tracks/jam-tracks.routes.ts`
  (the per-segment loop of the `POST /stream` handler).

Modelling conventions:

* JavaScript numbers are modelled by `Int` (integer attribute values and
  sequence numbers) and by `Rat` (the duration arithmetic).  Every theorem
  stays inside the domain where JavaScript arithmetic is exact and finite;
  hypotheses such as `0 < segmentDuration` keep the statements away from the
  division-by-zero and NaN regimes of the source language.
* The DOM accessors of `xmldom` (`getElementsByTagName`, `getAttribute`,
  `textContent`) are the boundary of the embedding: an `XmlDoc` records what
  those accessors return and the embedded code starts from there, exactly as
  the source starts from their results.
* Network effects are the other boundary: a `FetchOracle` gives, per segment,
  either the payload bytes delivered by `axios.get` or `none` for a failed
  request (timeout, network error, non-success status).  The deterministic
  rest of each function is embedded from the source.
* A byte buffer is a `List Nat`; `Buffer.alloc` and `Buffer.copy` are embedded
  below as `bufAlloc` and `bufCopy`.
* Fallible code returns `Except`; a thrown JavaScript error is `Except.error`.
-/

namespace Scraper

/-- Segment kind, mirroring the `"init" | "media"` union of
`AudioSegment.type` in `shared/types/api.types.ts`. -/
inductive SegmentType where
  | init
  | media
deriving DecidableEq, Repr

/-- Mirrors `AudioSegment` of `shared/types/api.types.ts`. -/
structure AudioSegment where
  type : SegmentType
  url : String
  number : Int
deriving DecidableEq, Repr

/-- A byte buffer; byte values are left abstract as naturals. -/
abbrev Bytes := List Nat

/-- Mirrors `AudioBuffer` of `shared/types/api.types.ts`: one successfully
fetched segment payload together with its sequence number and kind. -/
structure AudioBuffer where
  data : Bytes
  number : Int
  type : SegmentType
deriving DecidableEq, Repr

/-- Mirrors `PlaylistInfo` of `shared/types/api.types.ts`.  As in the source
(line 46 of the service), `totalDuration` holds the per-segment duration. -/
structure PlaylistInfo where
  baseUrl : String
  totalDuration : Rat
  segmentDuration : Rat
  totalSegments : Int
  segments : List AudioSegment
deriving DecidableEq, Repr

/-- The single parse failure of `parsePlaylistXML`:
`throw new Error("No SegmentTemplate found in playlist")`. -/
inductive ParseError where
  | noSegmentTemplate
deriving DecidableEq, Repr

/-- The attributes which `parsePlaylistXML` reads from the first
`SegmentTemplate` element; `getAttribute` yields `none` for a missing
attribute. -/
structure SegmentTemplateEl where
  duration : Option String
  timescale : Option String
  initializationAttr : Option String
  media : Option String
  startNumber : Option String
deriving DecidableEq, Repr

/-- The parts of the parsed DOM that `parsePlaylistXML` reads: the text of
the first `BaseURL` element (if the element exists), the first
`SegmentTemplate` element (if any), and the `mediaPresentationDuration`
attribute of the first `MPD` element (if element and attribute exist). -/
structure XmlDoc where
  baseURL : Option String
  segmentTemplate : Option SegmentTemplateEl
  mediaPresentationDuration : Option String
deriving DecidableEq, Repr

/-- JavaScript `a || dflt` for an optional string `a`: both a missing value
and the empty string are falsy and select the default. -/
def attrOr (a : Option String) (dflt : String) : String :=
  match a with
  | some s => if s = "" then dflt else s
  | none => dflt

/-- Value of a digit string. -/
def digitsToNat (ds : List Char) : Nat :=
  ds.foldl (fun n c => 10 * n + (c.toNat - 48)) 0

/-- JavaScript `parseInt` on an attribute string: skip leading whitespace,
optional sign, then the longest digit prefix; `none` models `NaN`.  (The
hexadecimal `0x` prefix form does not occur in these manifests and is not
modelled.) -/
def jsParseInt (s : String) : Option Int :=
  let cs := s.data.dropWhile (fun c => c == ' ' || c == '\t' || c == '\n' || c == '\r')
  match cs with
  | '-' :: rest =>
    let ds := rest.takeWhile Char.isDigit
    if ds.isEmpty then none else some (-(digitsToNat ds : Int))
  | '+' :: rest =>
    let ds := rest.takeWhile Char.isDigit
    if ds.isEmpty then none else some ((digitsToNat ds : Int))
  | _ =>
    let ds := cs.takeWhile Char.isDigit
    if ds.isEmpty then none else some ((digitsToNat ds : Int))

/-- Value of the fractional digit string after the decimal point. -/
def fracToRat (ds : List Char) : Rat :=
  (digitsToNat ds : Rat) / (10 : Rat) ^ ds.length

/-- One anchored attempt of the regular expression `PT(\d+(?:\.\d+)?)S` at
the head of the character list, returning the numeric value of the capture
group (the value `parseFloat` produces on it). -/
def matchPTSAt : List Char → Option Rat
  | 'P' :: 'T' :: rest =>
    let ds := rest.takeWhile Char.isDigit
    let rest2 := rest.dropWhile Char.isDigit
    if ds.isEmpty then none
    else
      match rest2 with
      | '.' :: rest3 =>
        let fs := rest3.takeWhile Char.isDigit
        let rest4 := rest3.dropWhile Char.isDigit
        if fs.isEmpty then none
        else
          match rest4 with
          | 'S' :: _ => some ((digitsToNat ds : Rat) + fracToRat fs)
          | _ => none
      | 'S' :: _ => some ((digitsToNat ds : Rat))
      | _ => none
  | _ => none

/-- Leftmost match of `PT(\d+(?:\.\d+)?)S` in the string, as
`String.prototype.match` finds it; `none` models a failed match. -/
def matchPTS : List Char → Option Rat
  | [] => none
  | c :: rest =>
    match matchPTSAt (c :: rest) with
    | some v => some v
    | none => matchPTS rest

/-- Lines 49 to 60 of the service: the total presentation duration parsed
from the `mediaPresentationDuration` attribute, or `none` when the attribute
is absent, empty, or does not match the pattern. -/
def mpdDuration (xmlDoc : XmlDoc) : Option Rat :=
  match xmlDoc.mediaPresentationDuration with
  | some attr => matchPTS attr.data
  | none => none

/-- JavaScript `String.prototype.replace` with a plain string pattern on a
character list: only the first occurrence of `pat` is replaced by `rep`. -/
def replaceFirstL (pat rep : List Char) : List Char → List Char
  | [] => if pat.isEmpty then rep else []
  | c :: rest =>
    if pat.isPrefixOf (c :: rest) then rep ++ (c :: rest).drop pat.length
    else c :: replaceFirstL pat rep rest

/-- JavaScript `s.replace(pat, rep)` for plain string arguments. -/
def replaceFirst (pat rep s : String) : String :=
  ⟨replaceFirstL pat.data rep.data s.data⟩

/-- Lines 72 to 79 of the service: the URL of the Initialization segment.
Only `$RepresentationID$` is substituted in the `initialization` template. -/
def initSegmentUrl (actualBaseUrl templ : String) : String :=
  actualBaseUrl ++ replaceFirst "$RepresentationID$" "0" templ

/-- Lines 82 to 91 of the service: the URL of Media segment number `i`:
`media.replace("$RepresentationID$", "0").replace("$Number$", i.toString())`
appended to the base URL. -/
def mediaSegmentUrl (actualBaseUrl media : String) (i : Int) : String :=
  actualBaseUrl ++ replaceFirst "$Number$" (toString i) (replaceFirst "$RepresentationID$" "0" media)

/-- `parsePlaylistXML` of `audio-processor.service.ts` (lines 14 to 109),
starting from the recorded DOM accessor results.  The second `match` arm
models the case where one of the integer attributes is `NaN` in the source:
there every derived number is `NaN` and the media loop runs zero times; the
unrepresentable `NaN` fields are rendered as `0`, and every theorem below
carries hypotheses keeping it inside the first arm. -/
def parsePlaylistXML (xmlDoc : XmlDoc) (baseUrl : String) : Except ParseError PlaylistInfo :=
  let actualBaseUrl := attrOr xmlDoc.baseURL baseUrl
  match xmlDoc.segmentTemplate with
  | none => Except.error ParseError.noSegmentTemplate
  | some st =>
    let initTempl := attrOr st.initializationAttr ""
    let media := attrOr st.media ""
    let initSegments : List AudioSegment :=
      if initTempl = "" then []
      else [{ type := SegmentType.init, url := initSegmentUrl actualBaseUrl initTempl, number := 0 }]
    match jsParseInt (attrOr st.duration "0"), jsParseInt (attrOr st.timescale "1"),
          jsParseInt (attrOr st.startNumber "1") with
    | some duration, some timescale, some startNumber =>
      let segmentDuration : Rat := (duration : Rat) / (timescale : Rat)
      let totalDuration := segmentDuration
      let actualTotalDuration := (mpdDuration xmlDoc).getD segmentDuration
      let totalSegments : Int := ⌈actualTotalDuration / segmentDuration⌉
      let mediaSegments : List AudioSegment :=
        (List.range totalSegments.toNat).map (fun (k : Nat) =>
          { type := SegmentType.media,
            url := mediaSegmentUrl actualBaseUrl media (startNumber + (k : Int)),
            number := startNumber + (k : Int) })
      Except.ok { baseUrl := actualBaseUrl, totalDuration := totalDuration,
                  segmentDuration := segmentDuration, totalSegments := totalSegments,
                  segments := initSegments ++ mediaSegments }
    | _, _, _ =>
      Except.ok { baseUrl := actualBaseUrl, totalDuration := 0, segmentDuration := 0,
                  totalSegments := 0, segments := initSegments }

/-- Per-segment network outcome of `axios.get`: the delivered payload bytes,
or `none` when the request fails. -/
def FetchOracle := AudioSegment → Option Bytes

/-- Lines 120 to 149 of the service: the sequential fetch loop.  A success is
pushed onto `audioBuffers`, a failure pushes the segment number onto
`failedSegments` and the loop continues with the next segment. -/
def fetchLoop (fetch : FetchOracle) (segments : List AudioSegment) :
    List AudioBuffer × List Int :=
  segments.foldl (fun acc segment =>
    match fetch segment with
    | some d => (acc.1 ++ [{ data := d, number := segment.number, type := segment.type }], acc.2)
    | none => (acc.1, acc.2 ++ [segment.number])) ([], [])

/-- The sort relation of `audioBuffers.sort((a, b) => a.number - b.number)`. -/
def numLE (a b : AudioBuffer) : Prop := a.number ≤ b.number

instance : DecidableRel numLE := fun a b => inferInstanceAs (Decidable (a.number ≤ b.number))

instance : IsTotal AudioBuffer numLE := ⟨fun a b => Int.le_total a.number b.number⟩

instance : IsTrans AudioBuffer numLE := ⟨fun _ _ _ h h' => le_trans h h'⟩

/-- Line 159 of the service: the stable ascending sort by segment number. -/
def sortByNumber (l : List AudioBuffer) : List AudioBuffer :=
  List.insertionSort numLE l

/-- `Buffer.alloc(n)`: a zero-filled buffer of length `n`. -/
def bufAlloc (n : Nat) : Bytes := List.replicate n 0

/-- `src.copy(dst, targetStart)`: overwrite `dst` with `src` starting at
`targetStart`, never growing `dst`. -/
def bufCopy (src dst : Bytes) (targetStart : Nat) : Bytes :=
  (dst.take targetStart ++ src ++ dst.drop (targetStart + src.length)).take dst.length

/-- Lines 161 to 172 of the service: allocate one buffer whose length is the
sum of the payload lengths and copy each payload at its running offset. -/
def combineBuffers (audioBuffers : List AudioBuffer) : Bytes :=
  let totalLength := (audioBuffers.map (fun b => b.data.length)).sum
  let combinedBuffer := bufAlloc totalLength
  (audioBuffers.foldl
    (fun acc buffer => (bufCopy buffer.data acc.1 acc.2, acc.2 + buffer.data.length))
    (combinedBuffer, 0)).1

/-- Lines 158 to 172 of the service: sort the fetched payloads by segment
number, then concatenate them into one buffer. -/
def assembleBuffers (audioBuffers : List AudioBuffer) : Bytes :=
  combineBuffers (sortByNumber audioBuffers)

/-- `fetchAudioSegments` of `audio-processor.service.ts` (lines 114 to 182),
with the network modelled by the oracle.  The deterministic body never
throws: the outer catch only rethrows, and every `axios` failure is absorbed
by the per-segment catch, so the result is always `Except.ok`. -/
def fetchAudioSegments (fetch : FetchOracle) (segments : List AudioSegment) :
    Except String Bytes :=
  let audioBuffers := (fetchLoop fetch segments).1
  Except.ok (assembleBuffers audioBuffers)

/-- The per-segment loop of the `POST /stream` handler in
`jam-tracks.routes.ts` (lines 84 to 97): for each segment of the manifest in
list order, fetch it and append its bytes to the response; a failing segment
is logged and skipped.  The returned list is the byte stream written to the
sink. -/
def streamSegments (fetch : FetchOracle) (segments : List AudioSegment) : Bytes :=
  segments.foldl (fun res segment =>
    match fetch segment with
    | some d => res ++ d
    | none => res) []

/-- A fetch oracle under which every request fails. -/
def failOracle : FetchOracle := fun _ => none

/-- Segment template of the concrete example document: `duration=1000`,
`timescale=1000`, an initialization template, `startNumber=1`. -/
def stC3 : SegmentTemplateEl :=
  { duration := some "1000", timescale := some "1000",
    initializationAttr := some "init.mp4",
    media := some "seg-$Number$-$RepresentationID$.m4s",
    startNumber := some "1" }

/-- Concrete manifest document of the spec example: `stC3` together with the
total-duration attribute `PT5.5S`. -/
def docC3 : XmlDoc :=
  { baseURL := none,
    segmentTemplate := some stC3,
    mediaPresentationDuration := some "PT5.5S" }

/-- The manifest that parsing `docC3` against base URL `http://b/` yields. -/
def mC3 : PlaylistInfo :=
  { baseUrl := "http://b/", totalDuration := 1, segmentDuration := 1, totalSegments := 6,
    segments :=
      [{ type := SegmentType.init, url := "http://b/init.mp4", number := 0 },
       { type := SegmentType.media, url := "http://b/seg-1-0.m4s", number := 1 },
       { type := SegmentType.media, url := "http://b/seg-2-0.m4s", number := 2 },
       { type := SegmentType.media, url := "http://b/seg-3-0.m4s", number := 3 },
       { type := SegmentType.media, url := "http://b/seg-4-0.m4s", number := 4 },
       { type := SegmentType.media, url := "http://b/seg-5-0.m4s", number := 5 },
       { type := SegmentType.media, url := "http://b/seg-6-0.m4s", number := 6 }] }

/-- A document with no `SegmentTemplate` element. -/
def docNoTemplate : XmlDoc :=
  { baseURL := some "http://cdn/",
    segmentTemplate := none,
    mediaPresentationDuration := some "PT5.5S" }

/-- Segment template with `startNumber=0` together with an initialization
template. -/
def stC8 : SegmentTemplateEl :=
  { duration := some "1000", timescale := some "1000",
    initializationAttr := some "i.mp4",
    media := some "m$Number$.mp4",
    startNumber := some "0" }

/-- A document with no total-duration attribute and `startNumber=0` together
with an initialization template, so that the Initialization segment and the
first Media segment both carry sequence number `0`. -/
def docC8 : XmlDoc :=
  { baseURL := none,
    segmentTemplate := some stC8,
    mediaPresentationDuration := none }

/-- Segment template giving a two-second segment duration and no
initialization template. -/
def stC7 : SegmentTemplateEl :=
  { duration := some "2000", timescale := some "1000",
    initializationAttr := none,
    media := some "m$Number$.mp4",
    startNumber := some "1" }

/-- A document whose total-duration attribute does not match the
`PT(\d+(?:\.\d+)?)S` pattern. -/
def docC7 : XmlDoc :=
  { baseURL := none,
    segmentTemplate := some stC7,
    mediaPresentationDuration := some "5.5S" }

/-- Segment template whose initialization template contains a sequence
placeholder but no representation placeholder. -/
def stC10 : SegmentTemplateEl :=
  { duration := some "1000", timescale := some "1000",
    initializationAttr := some "i-$Number$-x.mp4",
    media := some "m$Number$.mp4",
    startNumber := some "1" }

/-- A document exercising the Initialization segment URL generation. -/
def docC10 : XmlDoc :=
  { baseURL := none,
    segmentTemplate := some stC10,
    mediaPresentationDuration := none }

/-- The manifest that parsing `docC10` against base URL `B/` yields. -/
def mC10 : PlaylistInfo :=
  { baseUrl := "B/", totalDuration := 1, segmentDuration := 1, totalSegments := 1,
    segments :=
      [{ type := SegmentType.init, url := "B/i-$Number$-x.mp4", number := 0 },
       { type := SegmentType.media, url := "B/m1.mp4", number := 1 }] }

/-- A concrete segment whose fetch will fail. -/
def segU : AudioSegment := { type := SegmentType.init, url := "u", number := 0 }

/-- Fetched payload with sequence number 2. -/
def bufTwo : AudioBuffer := { data := [3], number := 2, type := SegmentType.media }

/-- Fetched payload with sequence number 5. -/
def bufFive : AudioBuffer := { data := [1, 2], number := 5, type := SegmentType.media }

/-- Three media segments in ascending manifest order. -/
def segA : AudioSegment := { type := SegmentType.media, url := "a", number := 1 }

/-- Second of the three media segments. -/
def segB : AudioSegment := { type := SegmentType.media, url := "b", number := 2 }

/-- Third of the three media segments. -/
def segC : AudioSegment := { type := SegmentType.media, url := "c", number := 3 }

/-- An oracle that fails exactly on segment number 2 and otherwise delivers a
one-byte payload. -/
def oracleC9 : FetchOracle := fun s => if s.number = 2 then none else some [s.number.toNat]

/-- No occurrence of `pat` begins inside the block `a` when `rest` follows:
every nonempty suffix `u` of `a` fails to start a match of `pat` in
`u ++ rest`.  When `rest` itself starts with `pat`, this pins that occurrence
as the first occurrence of `pat` in `a ++ rest`. -/
def noStartIn (pat a rest : List Char) : Prop :=
  ∀ u ∈ a.tails, u = [] ∨ pat.isPrefixOf (u ++ rest) = false

instance (pat a rest : List Char) : Decidable (noStartIn pat a rest) :=
  inferInstanceAs (Decidable (∀ u ∈ a.tails, u = [] ∨ pat.isPrefixOf (u ++ rest) = false))

/-- A copy that exactly fills the zero region after `done` neither clips nor
pads: the buffer splits into the already written prefix, the new payload, and
the remaining zero region. -/
theorem bufCopy_exact (src done : Bytes) (S : Nat) :
    bufCopy src (done ++ List.replicate (src.length + S) 0) done.length
    = done ++ src ++ List.replicate S 0 := by
  have hdst : done ++ List.replicate (src.length + S) 0
      = (done ++ List.replicate src.length 0) ++ List.replicate S 0 := by
    rw [List.replicate_add, List.append_assoc]
  unfold bufCopy
  rw [List.take_left' rfl, hdst, List.drop_left' (by simp)]
  apply List.take_of_length_le
  simp [Nat.add_assoc]

/-- The copy loop of `combineBuffers`, started on a buffer that already holds
`done` followed by exactly enough zero bytes, appends the payloads in list
order. -/
theorem combine_go (bufs : List AudioBuffer) :
    ∀ done : Bytes,
      (bufs.foldl (fun acc buffer => (bufCopy buffer.data acc.1 acc.2, acc.2 + buffer.data.length))
        (done ++ List.replicate ((bufs.map (fun b => b.data.length)).sum) 0, done.length)).1
      = done ++ (bufs.map (fun b => b.data)).flatten := by
  induction bufs with
  | nil => intro done; simp
  | cons b bs ih =>
    intro done
    simp only [List.map_cons, List.sum_cons, List.foldl_cons, List.map_cons, List.flatten_cons]
    rw [bufCopy_exact b.data done ((bs.map (fun x => x.data.length)).sum)]
    rw [show done.length + b.data.length = (done ++ b.data).length by simp]
    rw [← List.append_assoc done b.data]
    rw [ih (done ++ b.data)]

/-- `combineBuffers` concatenates the payloads in list order: the allocated
buffer is filled completely, with no gap or padding bytes. -/
theorem combineBuffers_eq_flatten (bufs : List AudioBuffer) :
    combineBuffers bufs = (bufs.map (fun b => b.data)).flatten := by
  have h := combine_go bufs []
  simpa [combineBuffers, bufAlloc] using h

/-- The fetch loop with its two accumulators: successes accumulate in
delivery order, failed segment numbers accumulate in loop order. -/
theorem fetchLoop_go (fetch : FetchOracle) (segs : List AudioSegment) :
    ∀ (acc1 : List AudioBuffer) (acc2 : List Int),
      segs.foldl (fun (acc : List AudioBuffer × List Int) segment =>
        match fetch segment with
        | some d => (acc.1 ++ [{ data := d, number := segment.number, type := segment.type }], acc.2)
        | none => (acc.1, acc.2 ++ [segment.number])) (acc1, acc2)
      = (acc1 ++ segs.filterMap
            (fun s => (fetch s).map (fun d =>
              ({ data := d, number := s.number, type := s.type } : AudioBuffer))),
         acc2 ++ (segs.filter (fun s => (fetch s).isNone)).map (fun s => s.number)) := by
  induction segs with
  | nil => intro acc1 acc2; simp
  | cons s rest ih =>
    intro acc1 acc2
    rw [List.foldl_cons]
    cases hfs : fetch s with
    | none =>
      simp only [hfs]
      rw [ih]
      simp [List.filterMap_cons, List.filter_cons, hfs]
    | some d =>
      simp only [hfs]
      rw [ih]
      simp [List.filterMap_cons, List.filter_cons, hfs]

/-- `fetchLoop` computed in closed form. -/
theorem fetchLoop_spec (fetch : FetchOracle) (segs : List AudioSegment) :
    fetchLoop fetch segs
    = (segs.filterMap
         (fun s => (fetch s).map (fun d =>
           ({ data := d, number := s.number, type := s.type } : AudioBuffer))),
       (segs.filter (fun s => (fetch s).isNone)).map (fun s => s.number)) := by
  have h := fetchLoop_go fetch segs [] []
  simpa [fetchLoop] using h

/-- The streaming loop with its accumulated response bytes. -/
theorem streamSegments_go (fetch : FetchOracle) (segs : List AudioSegment) :
    ∀ acc : Bytes,
      segs.foldl (fun res segment =>
        match fetch segment with
        | some d => res ++ d
        | none => res) acc
      = acc ++ (segs.filterMap fetch).flatten := by
  induction segs with
  | nil => intro acc; simp
  | cons s rest ih =>
    intro acc
    cases hfs : fetch s with
    | none =>
      simp only [List.foldl_cons, hfs, List.filterMap_cons]
      rw [ih]
    | some d =>
      simp only [List.foldl_cons, hfs, List.filterMap_cons, List.flatten_cons]
      rw [ih]
      simp

/-- `streamSegments` computed in closed form: the bytes written to the sink
are the successful payloads concatenated in manifest list order. -/
theorem streamSegments_spec (fetch : FetchOracle) (segs : List AudioSegment) :
    streamSegments fetch segs = (segs.filterMap fetch).flatten := by
  have h := streamSegments_go fetch segs []
  simpa [streamSegments] using h

/-- The sort of line 159 permutes its input. -/
theorem sortByNumber_perm (l : List AudioBuffer) : (sortByNumber l).Perm l :=
  List.perm_insertionSort numLE l

/-- The sort of line 159 sorts ascending by segment number. -/
theorem sortByNumber_sorted (l : List AudioBuffer) : List.Sorted numLE (sortByNumber l) :=
  List.sorted_insertionSort numLE l

/-- A list sorted by segment number whose numbers are distinct is strictly
sorted. -/
theorem sorted_strict_of_nodup {m : List AudioBuffer} (hs : List.Sorted numLE m)
    (hd : (m.map (fun b => b.number)).Nodup) :
    m.Pairwise (fun a b => a.number < b.number) := by
  have hne : m.Pairwise (fun a b => a.number ≠ b.number) := List.pairwise_map.mp hd
  exact (hs.and hne).imp (fun h => lt_of_le_of_ne h.1 h.2)

/-- Sorting by segment number is invariant under permutation of the input when
the segment numbers are distinct. -/
theorem sortByNumber_eq_of_perm {l l' : List AudioBuffer} (hp : l.Perm l')
    (hd : (l.map (fun b => b.number)).Nodup) : sortByNumber l = sortByNumber l' := by
  haveI : IsAntisymm AudioBuffer (fun a b => a.number < b.number) :=
    ⟨fun a b h h' => absurd (lt_trans h h') (lt_irrefl _)⟩
  have hd1 : ((sortByNumber l).map (fun b => b.number)).Nodup :=
    (((sortByNumber_perm l).map (fun b => b.number)).nodup_iff).mpr hd
  have hdl' : (l'.map (fun b => b.number)).Nodup :=
    ((hp.map (fun b => b.number)).nodup_iff).mp hd
  have hd2 : ((sortByNumber l').map (fun b => b.number)).Nodup :=
    (((sortByNumber_perm l').map (fun b => b.number)).nodup_iff).mpr hdl'
  exact List.eq_of_perm_of_sorted
    ((sortByNumber_perm l).trans (hp.trans (sortByNumber_perm l').symm))
    (sorted_strict_of_nodup (sortByNumber_sorted l) hd1)
    (sorted_strict_of_nodup (sortByNumber_sorted l') hd2)

/-- Two strings with the same character data are equal. -/
theorem string_eq_of_data {a b : String} (h : a.data = b.data) : a = b := by
  cases a
  cases b
  cases h
  rfl

/-- A non-matching head character passes through the first-occurrence
replacement unchanged. -/
theorem replaceFirstL_cons_of_neg {pat : List Char} (rep : List Char) {c : Char}
    {rest : List Char} (h : pat.isPrefixOf (c :: rest) = false) :
    replaceFirstL pat rep (c :: rest) = c :: replaceFirstL pat rep rest := by
  simp [replaceFirstL, h]

/-- A match at the head of the string is replaced, keeping the tail. -/
theorem replaceFirstL_head (pat rep t : List Char) :
    replaceFirstL pat rep (pat ++ t) = rep ++ t := by
  cases pat with
  | nil =>
    cases t with
    | nil => simp [replaceFirstL]
    | cons c r => simp [replaceFirstL, List.isPrefixOf]
  | cons p ps =>
    have hpre : (p :: ps).isPrefixOf (p :: (ps ++ t)) = true :=
      List.isPrefixOf_iff_prefix.mpr ⟨t, rfl⟩
    show replaceFirstL (p :: ps) rep (p :: (ps ++ t)) = rep ++ t
    rw [replaceFirstL, if_pos hpre]
    simp [List.drop_left']

/-- A pattern that occurs nowhere in the string leaves the first-occurrence
replacement as the identity. -/
theorem replaceFirstL_no_occurrence {pat : List Char} (rep : List Char) :
    ∀ {s : List Char}, ¬ List.IsInfix pat s → replaceFirstL pat rep s = s := by
  intro s
  induction s with
  | nil =>
    intro h
    cases pat with
    | nil => exact absurd List.nil_infix h
    | cons p ps => simp [replaceFirstL]
  | cons c rest ih =>
    intro h
    have h1 : pat.isPrefixOf (c :: rest) = false := by
      rcases Bool.eq_false_or_eq_true (pat.isPrefixOf (c :: rest)) with hb | hb
      · exact absurd (List.isPrefixOf_iff_prefix.mp hb).isInfix h
      · exact hb
    rw [replaceFirstL_cons_of_neg rep h1, ih (fun hi => h (List.infix_cons hi))]

/-- String-level version of `replaceFirstL_no_occurrence`. -/
theorem replaceFirst_no_occurrence {pat s : String} (rep : String)
    (h : ¬ List.IsInfix pat.data s.data) : replaceFirst pat rep s = s :=
  string_eq_of_data (replaceFirstL_no_occurrence rep.data h)

/-- `parsePlaylistXML` in the branch where the three integer attributes parse,
written as one explicit manifest record. -/
theorem parse_ok_main (doc : XmlDoc) (st : SegmentTemplateEl) (d t s : Int) (fb : String)
    (hst : doc.segmentTemplate = some st)
    (hd : jsParseInt (attrOr st.duration "0") = some d)
    (ht : jsParseInt (attrOr st.timescale "1") = some t)
    (hs : jsParseInt (attrOr st.startNumber "1") = some s) :
    parsePlaylistXML doc fb = Except.ok
      { baseUrl := attrOr doc.baseURL fb,
        totalDuration := (d : Rat) / (t : Rat),
        segmentDuration := (d : Rat) / (t : Rat),
        totalSegments := ⌈((mpdDuration doc).getD ((d : Rat) / (t : Rat))) / ((d : Rat) / (t : Rat))⌉,
        segments :=
          (if attrOr st.initializationAttr "" = "" then []
           else [{ type := SegmentType.init,
                   url := initSegmentUrl (attrOr doc.baseURL fb) (attrOr st.initializationAttr ""),
                   number := 0 }])
          ++ (List.range
                (⌈((mpdDuration doc).getD ((d : Rat) / (t : Rat))) / ((d : Rat) / (t : Rat))⌉).toNat).map
              (fun (k : Nat) =>
                { type := SegmentType.media,
                  url := mediaSegmentUrl (attrOr doc.baseURL fb) (attrOr st.media "") (s + (k : Int)),
                  number := s + (k : Int) }) } := by
  simp only [parsePlaylistXML, hst, hd, ht, hs]

/-- C1: for every set of successfully fetched segment payloads with distinct
sequence numbers, the assembled output buffer is the concatenation of exactly
those payloads in ascending sequence-number order, with no gap or placeholder
bytes, and two permutations of the same payload set assemble to byte-identical
output. -/
theorem assemble_order_independent (l l' : List AudioBuffer)
    (hperm : l.Perm l') (hnodup : (l.map (fun b => b.number)).Nodup) :
    assembleBuffers l = ((sortByNumber l).map (fun b => b.data)).flatten
    ∧ (sortByNumber l).Perm l
    ∧ List.Sorted numLE (sortByNumber l)
    ∧ assembleBuffers l = assembleBuffers l' := by
  refine ⟨combineBuffers_eq_flatten (sortByNumber l), sortByNumber_perm l,
    sortByNumber_sorted l, ?_⟩
  show combineBuffers (sortByNumber l) = combineBuffers (sortByNumber l')
  rw [sortByNumber_eq_of_perm hperm hnodup]

/-- Witness for `assemble_order_independent`: two deliveries of the payload
set with numbers 5 and 2. -/
theorem assemble_order_independent_witness :
    ([bufFive, bufTwo].Perm [bufTwo, bufFive]
      ∧ ([bufFive, bufTwo].map (fun b => b.number)).Nodup)
    ∧ (assembleBuffers [bufFive, bufTwo]
        = ((sortByNumber [bufFive, bufTwo]).map (fun b => b.data)).flatten
      ∧ (sortByNumber [bufFive, bufTwo]).Perm [bufFive, bufTwo]
      ∧ List.Sorted numLE (sortByNumber [bufFive, bufTwo])
      ∧ assembleBuffers [bufFive, bufTwo] = assembleBuffers [bufTwo, bufFive]) :=
  ⟨⟨by decide, by decide⟩,
   assemble_order_independent [bufFive, bufTwo] [bufTwo, bufFive] (by decide) (by decide)⟩

/-- C2 counterexample: when the only segment fails, `fetchAudioSegments`
resolves with an empty buffer instead of raising an error. -/
theorem fetch_all_fail_cex :
    fetchAudioSegments failOracle [segU] = Except.ok [] := by
  rfl

/-- C2 amended: when every segment fetch fails, `fetchAudioSegments` returns
an empty buffer; no error is raised. -/
theorem fetch_all_fail_returns_empty (fetch : FetchOracle) (segments : List AudioSegment)
    (h : ∀ s ∈ segments, fetch s = none) :
    fetchAudioSegments fetch segments = Except.ok [] := by
  have h1 : (fetchLoop fetch segments).1 = [] := by
    rw [fetchLoop_spec]
    exact List.filterMap_eq_nil_iff.mpr (fun s hs => by simp [h s hs])
  show Except.ok (assembleBuffers (fetchLoop fetch segments).1) = Except.ok ([] : Bytes)
  rw [h1]
  rfl

/-- Witness for `fetch_all_fail_returns_empty`: one segment, one failure. -/
theorem fetch_all_fail_returns_empty_witness :
    (∀ s ∈ [segU], failOracle s = none)
    ∧ fetchAudioSegments failOracle [segU] = Except.ok [] :=
  ⟨fun _ _ => rfl, fetch_all_fail_returns_empty failOracle [segU] (fun _ _ => rfl)⟩

/-- C4: a document with no segment-template element makes `parsePlaylistXML`
fail with the parse error; no manifest and no segments are produced. -/
theorem parse_no_segment_template (doc : XmlDoc) (fb : String)
    (h : doc.segmentTemplate = none) :
    parsePlaylistXML doc fb = Except.error ParseError.noSegmentTemplate := by
  simp [parsePlaylistXML, h]

/-- Witness for `parse_no_segment_template`. -/
theorem parse_no_segment_template_witness :
    docNoTemplate.segmentTemplate = none
    ∧ parsePlaylistXML docNoTemplate "b" = Except.error ParseError.noSegmentTemplate :=
  ⟨rfl, parse_no_segment_template docNoTemplate "b" rfl⟩

/-- C5: every failing segment is recorded in the failed list, in loop order,
while the successes are exactly the segments whose fetch succeeded, each
consulted once; the batch always resolves with the assembled buffer and never
raises, however many segments failed. -/
theorem fetch_partial_failure_tolerant (fetch : FetchOracle) (segments : List AudioSegment) :
    (fetchLoop fetch segments).2
      = (segments.filter (fun s => (fetch s).isNone)).map (fun s => s.number)
    ∧ (fetchLoop fetch segments).1
      = segments.filterMap
          (fun s => (fetch s).map (fun d =>
            ({ data := d, number := s.number, type := s.type } : AudioBuffer)))
    ∧ fetchAudioSegments fetch segments
      = Except.ok (assembleBuffers (fetchLoop fetch segments).1) := by
  refine ⟨?_, ?_, rfl⟩
  · rw [fetchLoop_spec]
  · rw [fetchLoop_spec]

/-- Parsing the example document yields exactly the manifest `mC3`. -/
theorem parse_docC3_eq : parsePlaylistXML docC3 "http://b/" = Except.ok mC3 := by
  rw [parse_ok_main docC3 stC3 1000 1000 1 "http://b/" rfl
    (by decide) (by decide) (by decide)]
  have e1 : ((1000 : Int) : Rat) / ((1000 : Int) : Rat) = 1 := by norm_num
  have e2 : mpdDuration docC3 = some (11 / 2 : Rat) := by
    show some ((digitsToNat ['5'] : Rat) + fracToRat ['5']) = some (11 / 2 : Rat)
    have hd5 : digitsToNat ['5'] = 5 := rfl
    norm_num [fracToRat, hd5]
  rw [e1, e2]
  have e3 : (⌈((some (11 / 2 : Rat)).getD 1) / (1 : Rat)⌉ : Int) = 6 := by
    rw [Option.getD_some, div_one, Int.ceil_eq_iff]
    norm_num
  rw [e3]
  rfl

/-- C3: for every parsed manifest (with integer attributes), the segment
count is the ceiling of the parsed total duration divided by the segment
duration; on the `PT5.5S` example with one-second segments, an initialization
template and start number 1, parsing yields 7 segments numbered 0 to 6. -/
theorem parse_segment_count :
    (∀ (doc : XmlDoc) (fb : String) (st : SegmentTemplateEl) (d t s : Int) (m : PlaylistInfo),
      doc.segmentTemplate = some st →
      jsParseInt (attrOr st.duration "0") = some d →
      jsParseInt (attrOr st.timescale "1") = some t →
      jsParseInt (attrOr st.startNumber "1") = some s →
      parsePlaylistXML doc fb = Except.ok m →
      m.totalSegments = ⌈((mpdDuration doc).getD m.segmentDuration) / m.segmentDuration⌉)
    ∧ (parsePlaylistXML docC3 "http://b/" = Except.ok mC3
       ∧ mC3.segments.length = 7
       ∧ mC3.segments.map (fun seg => seg.number) = [0, 1, 2, 3, 4, 5, 6]
       ∧ mC3.totalSegments = 6) := by
  constructor
  · intro doc fb st d t s m hst hd ht hs hm
    rw [parse_ok_main doc st d t s fb hst hd ht hs] at hm
    injection hm with h
    subst h
    rfl
  · exact ⟨parse_docC3_eq, by rfl, by rfl, by rfl⟩

/-- Witness for `parse_segment_count`, instantiating its universal part on
the concrete example document. -/
theorem parse_segment_count_witness :
    (docC3.segmentTemplate = some stC3
     ∧ jsParseInt (attrOr stC3.duration "0") = some 1000
     ∧ jsParseInt (attrOr stC3.timescale "1") = some 1000
     ∧ jsParseInt (attrOr stC3.startNumber "1") = some 1
     ∧ parsePlaylistXML docC3 "http://b/" = Except.ok mC3)
    ∧ mC3.totalSegments = ⌈((mpdDuration docC3).getD mC3.segmentDuration) / mC3.segmentDuration⌉ :=
  ⟨⟨rfl, by decide, by decide, by decide, parse_docC3_eq⟩,
   parse_segment_count.1 docC3 "http://b/" stC3 1000 1000 1 mC3 rfl (by decide) (by decide)
     (by decide) parse_docC3_eq⟩

/-- C7: when the total-duration attribute is absent or does not parse, the
manifest parses successfully, the total duration falls back to the segment
duration, and the segment count is 1. -/
theorem parse_total_duration_fallback (doc : XmlDoc) (fb : String) (st : SegmentTemplateEl)
    (d t s : Int)
    (hst : doc.segmentTemplate = some st)
    (hd : jsParseInt (attrOr st.duration "0") = some d)
    (ht : jsParseInt (attrOr st.timescale "1") = some t)
    (hs : jsParseInt (attrOr st.startNumber "1") = some s)
    (hmpd : mpdDuration doc = none)
    (hpos : 0 < (d : Rat) / (t : Rat)) :
    ∃ m, parsePlaylistXML doc fb = Except.ok m
      ∧ m.segmentDuration = (d : Rat) / (t : Rat)
      ∧ m.totalDuration = m.segmentDuration
      ∧ (mpdDuration doc).getD m.segmentDuration = m.segmentDuration
      ∧ m.totalSegments = 1 := by
  refine ⟨_, parse_ok_main doc st d t s fb hst hd ht hs, rfl, rfl, ?_, ?_⟩
  · rw [hmpd]
    rfl
  · show (⌈((mpdDuration doc).getD ((d : Rat) / (t : Rat))) / ((d : Rat) / (t : Rat))⌉ : Int) = 1
    rw [hmpd]
    simp [div_self (ne_of_gt hpos)]

/-- Witness for `parse_total_duration_fallback`: a document whose
total-duration attribute `5.5S` fails the pattern. -/
theorem parse_total_duration_fallback_witness :
    (docC7.segmentTemplate = some stC7
     ∧ jsParseInt (attrOr stC7.duration "0") = some 2000
     ∧ jsParseInt (attrOr stC7.timescale "1") = some 1000
     ∧ jsParseInt (attrOr stC7.startNumber "1") = some 1
     ∧ mpdDuration docC7 = none
     ∧ 0 < (2000 : Rat) / (1000 : Rat))
    ∧ ∃ m, parsePlaylistXML docC7 "b" = Except.ok m
        ∧ m.segmentDuration = (2000 : Rat) / (1000 : Rat)
        ∧ m.totalDuration = m.segmentDuration
        ∧ (mpdDuration docC7).getD m.segmentDuration = m.segmentDuration
        ∧ m.totalSegments = 1 :=
  ⟨⟨rfl, by decide, by decide, by decide, by decide, by norm_num⟩,
   parse_total_duration_fallback docC7 "b" stC7 2000 1000 1 rfl (by decide) (by decide)
     (by decide) (by decide) (by norm_num)⟩

/-- The first-occurrence replacement skips a leading block in which no
occurrence of the pattern starts. -/
theorem replaceFirstL_append_right (pat rep : List Char) :
    ∀ (a b : List Char),
      (∀ t ∈ a.tails, t = [] ∨ pat.isPrefixOf (t ++ b) = false) →
      replaceFirstL pat rep (a ++ b) = a ++ replaceFirstL pat rep b := by
  intro a
  induction a with
  | nil => intro b _; simp
  | cons c a' ih =>
    intro b h
    have h1 : pat.isPrefixOf (c :: (a' ++ b)) = false := by
      have := h (c :: a') (by rw [List.tails_cons]; exact List.mem_cons_self _ _)
      exact this.resolve_left (by simp)
    show replaceFirstL pat rep (c :: (a' ++ b)) = c :: (a' ++ replaceFirstL pat rep b)
    rw [replaceFirstL_cons_of_neg rep h1]
    rw [ih b (fun t ht => h t (by rw [List.tails_cons]; exact List.mem_cons_of_mem _ ht))]

/-- String append is associative (via the character data). -/
theorem string_append_assoc (x y z : String) : (x ++ y) ++ z = x ++ (y ++ z) :=
  string_eq_of_data (by simp [String.data_append, List.append_assoc])

/-- First-occurrence replacement on an arbitrary decomposed template: when no
occurrence of `pat` begins inside the leading block `a`, the occurrence of
`pat` right after `a` is the first one, and it alone is replaced. -/
theorem replaceFirst_decomposed (pat rep a b : String)
    (h : noStartIn pat.data a.data (pat.data ++ b.data)) :
    replaceFirst pat rep (a ++ pat ++ b) = a ++ rep ++ b := by
  apply string_eq_of_data
  show replaceFirstL pat.data rep.data ((a ++ pat) ++ b).data = ((a ++ rep) ++ b).data
  simp only [String.data_append]
  rw [List.append_assoc a.data pat.data b.data]
  rw [replaceFirstL_append_right pat.data rep.data a.data (pat.data ++ b.data) h]
  rw [replaceFirstL_head]
  simp [List.append_assoc]

/-- C6: for every media-segment template and sequence number, URL generation
is the base URL followed by the template with the representation placeholder
substituted by the string 0 and the sequence placeholder substituted by the
decimal form of the sequence number (each at its first occurrence, as in
JavaScript String.replace): the two substitutions are characterized for every
template containing the respective placeholder, composed for both placeholder
orders, templates containing neither placeholder pass through untouched so
unknown placeholders survive verbatim, and the spec template yields
seg-n-0.m4s. -/
theorem media_url_substitution :
    (∀ (base t : String) (n : Int),
      mediaSegmentUrl base t n
        = base ++ replaceFirst "$Number$" (toString n) (replaceFirst "$RepresentationID$" "0" t))
    ∧ (∀ a b : String,
        noStartIn "$RepresentationID$".data a.data ("$RepresentationID$".data ++ b.data) →
        replaceFirst "$RepresentationID$" "0" (a ++ "$RepresentationID$" ++ b) = a ++ "0" ++ b)
    ∧ (∀ (a b : String) (n : Int),
        noStartIn "$Number$".data a.data ("$Number$".data ++ b.data) →
        replaceFirst "$Number$" (toString n) (a ++ "$Number$" ++ b) = a ++ toString n ++ b)
    ∧ (∀ t : String, ¬ List.IsInfix "$RepresentationID$".data t.data →
        replaceFirst "$RepresentationID$" "0" t = t)
    ∧ (∀ (t : String) (n : Int), ¬ List.IsInfix "$Number$".data t.data →
        replaceFirst "$Number$" (toString n) t = t)
    ∧ (∀ (a b c : String) (n : Int) (base : String),
        noStartIn "$RepresentationID$".data (a ++ "$Number$" ++ b).data
          ("$RepresentationID$".data ++ c.data) →
        noStartIn "$Number$".data a.data ("$Number$".data ++ (b ++ "0" ++ c).data) →
        mediaSegmentUrl base (a ++ "$Number$" ++ b ++ "$RepresentationID$" ++ c) n
          = base ++ (a ++ toString n ++ b ++ "0" ++ c))
    ∧ (∀ (a b c : String) (n : Int) (base : String),
        noStartIn "$RepresentationID$".data a.data
          ("$RepresentationID$".data ++ (b ++ "$Number$" ++ c).data) →
        noStartIn "$Number$".data (a ++ "0" ++ b).data ("$Number$".data ++ c.data) →
        mediaSegmentUrl base (a ++ "$RepresentationID$" ++ b ++ "$Number$" ++ c) n
          = base ++ (a ++ "0" ++ b ++ toString n ++ c))
    ∧ (∀ (t : String) (n : Int) (base : String),
        ¬ List.IsInfix "$RepresentationID$".data t.data →
        ¬ List.IsInfix "$Number$".data t.data →
        mediaSegmentUrl base t n = base ++ t)
    ∧ (∀ (base : String) (n : Int),
        mediaSegmentUrl base "seg-$Number$-$RepresentationID$.m4s" n
          = base ++ ("seg-" ++ toString n ++ "-0.m4s")) := by
  refine ⟨fun base t n => rfl, ?_, ?_, ?_, ?_, ?_, ?_, ?_, ?_⟩
  · intro a b h
    exact replaceFirst_decomposed "$RepresentationID$" "0" a b h
  · intro a b n h
    exact replaceFirst_decomposed "$Number$" (toString n) a b h
  · intro t hR
    exact replaceFirst_no_occurrence _ hR
  · intro t n hN
    exact replaceFirst_no_occurrence _ hN
  · intro a b c n base h1 h2
    show base ++ replaceFirst "$Number$" (toString n)
        (replaceFirst "$RepresentationID$" "0"
          (a ++ "$Number$" ++ b ++ "$RepresentationID$" ++ c))
      = base ++ (a ++ toString n ++ b ++ "0" ++ c)
    rw [replaceFirst_decomposed "$RepresentationID$" "0" (a ++ "$Number$" ++ b) c h1]
    have harg : (a ++ "$Number$" ++ b) ++ "0" ++ c = a ++ "$Number$" ++ (b ++ "0" ++ c) := by
      simp [string_append_assoc]
    rw [harg, replaceFirst_decomposed "$Number$" (toString n) a (b ++ "0" ++ c) h2]
    simp [string_append_assoc]
  · intro a b c n base h1 h2
    show base ++ replaceFirst "$Number$" (toString n)
        (replaceFirst "$RepresentationID$" "0"
          (a ++ "$RepresentationID$" ++ b ++ "$Number$" ++ c))
      = base ++ (a ++ "0" ++ b ++ toString n ++ c)
    have harg : a ++ "$RepresentationID$" ++ b ++ "$Number$" ++ c
        = a ++ "$RepresentationID$" ++ (b ++ "$Number$" ++ c) := by
      simp [string_append_assoc]
    rw [harg, replaceFirst_decomposed "$RepresentationID$" "0" a (b ++ "$Number$" ++ c) h1]
    have harg2 : a ++ "0" ++ (b ++ "$Number$" ++ c) = (a ++ "0" ++ b) ++ "$Number$" ++ c := by
      simp [string_append_assoc]
    rw [harg2, replaceFirst_decomposed "$Number$" (toString n) (a ++ "0" ++ b) c h2]
  · intro t n base hR hN
    show base ++ replaceFirst "$Number$" (toString n)
        (replaceFirst "$RepresentationID$" "0" t) = base ++ t
    rw [replaceFirst_no_occurrence _ hR, replaceFirst_no_occurrence _ hN]
  · intro base n
    show base ++ replaceFirst "$Number$" (toString n)
        (replaceFirst "$RepresentationID$" "0" "seg-$Number$-$RepresentationID$.m4s")
      = base ++ ("seg-" ++ toString n ++ "-0.m4s")
    have h1 : replaceFirst "$RepresentationID$" "0" "seg-$Number$-$RepresentationID$.m4s"
        = "seg-$Number$-0.m4s" := by decide
    rw [h1]
    congr 1

/-- Witness for `media_url_substitution`: instantiates the single-placeholder
replacements, the composed spec-shaped template at sequence number 7, and the
unknown-placeholder pass-through, discharging every hypothesis concretely. -/
theorem media_url_substitution_witness :
    (noStartIn "$RepresentationID$".data "u".data ("$RepresentationID$".data ++ "v".data)
      ∧ replaceFirst "$RepresentationID$" "0" ("u" ++ "$RepresentationID$" ++ "v")
          = "u" ++ "0" ++ "v")
    ∧ (noStartIn "$Number$".data "u".data ("$Number$".data ++ "v".data)
      ∧ replaceFirst "$Number$" (toString (7 : Int)) ("u" ++ "$Number$" ++ "v")
          = "u" ++ toString (7 : Int) ++ "v")
    ∧ (noStartIn "$RepresentationID$".data ("seg-" ++ "$Number$" ++ "-").data
          ("$RepresentationID$".data ++ ".m4s".data)
      ∧ noStartIn "$Number$".data "seg-".data ("$Number$".data ++ ("-" ++ "0" ++ ".m4s").data)
      ∧ mediaSegmentUrl "http://b/" ("seg-" ++ "$Number$" ++ "-" ++ "$RepresentationID$" ++ ".m4s") 7
          = "http://b/" ++ ("seg-" ++ toString (7 : Int) ++ "-" ++ "0" ++ ".m4s"))
    ∧ ((¬ List.IsInfix "$RepresentationID$".data "x$Time$y".data)
      ∧ (¬ List.IsInfix "$Number$".data "x$Time$y".data)
      ∧ mediaSegmentUrl "http://b/" "x$Time$y" 7 = "http://b/" ++ "x$Time$y")
    ∧ mediaSegmentUrl "http://b/" "seg-$Number$-$RepresentationID$.m4s" 7
        = "http://b/seg-7-0.m4s" :=
  ⟨⟨by decide, media_url_substitution.2.1 "u" "v" (by decide)⟩,
   ⟨by decide, media_url_substitution.2.2.1 "u" "v" 7 (by decide)⟩,
   ⟨by decide, by decide,
    media_url_substitution.2.2.2.2.2.1 "seg-" "-" ".m4s" 7 "http://b/" (by decide) (by decide)⟩,
   ⟨by decide, by decide,
    media_url_substitution.2.2.2.2.2.2.2.1 "x$Time$y" 7 "http://b/" (by decide) (by decide)⟩,
   (media_url_substitution.2.2.2.2.2.2.2.2 "http://b/" 7).trans (by decide)⟩

/-- C8 counterexample: the document `docC8` (initialization template present,
`startNumber=0`) parses successfully into a segment list with sequence
numbers `[0, 0]`, which is neither strictly increasing nor duplicate-free. -/
theorem parse_seq_numbers_cex :
    (parsePlaylistXML docC8 "b").toOption.map (fun m => m.segments.map (fun seg => seg.number))
      = some [0, 0]
    ∧ ¬ ([(0 : Int), 0].Pairwise (fun a b => a < b))
    ∧ ¬ ([(0 : Int), 0].Nodup) := by
  refine ⟨?_, by decide, by decide⟩
  rw [parse_ok_main docC8 stC8 1000 1000 0 "b" rfl
    (by decide) (by decide) (by decide)]
  have e1 : ((1000 : Int) : Rat) / ((1000 : Int) : Rat) = 1 := by norm_num
  have e2 : mpdDuration docC8 = none := rfl
  rw [e1, e2]
  have e3 : (⌈((none : Option Rat).getD 1) / (1 : Rat)⌉ : Int) = 1 := by
    rw [Option.getD_none, div_one, Int.ceil_one]
  rw [e3]
  rfl

/-- C8 amended: for every parsed manifest (with integer attributes) that has
no initialization template or whose start number is at least 1, the sequence
numbers of the generated segments are strictly increasing, hence unique, and
an Initialization segment always carries number 0, heads the list, and is
followed only by Media segments. -/
theorem parse_seq_numbers_strict (doc : XmlDoc) (fb : String) (st : SegmentTemplateEl)
    (d t s : Int) (m : PlaylistInfo)
    (hst : doc.segmentTemplate = some st)
    (hd : jsParseInt (attrOr st.duration "0") = some d)
    (ht : jsParseInt (attrOr st.timescale "1") = some t)
    (hs : jsParseInt (attrOr st.startNumber "1") = some s)
    (hm : parsePlaylistXML doc fb = Except.ok m)
    (hok : attrOr st.initializationAttr "" = "" ∨ 1 ≤ s) :
    (m.segments.map (fun seg => seg.number)).Pairwise (fun a b => a < b)
    ∧ ∀ seg ∈ m.segments, seg.type = SegmentType.init →
        seg.number = 0 ∧ m.segments.head? = some seg
          ∧ ∀ seg2 ∈ m.segments.tail, seg2.type = SegmentType.media := by
  rw [parse_ok_main doc st d t s fb hst hd ht hs] at hm
  injection hm with h
  subst h
  by_cases hinit : attrOr st.initializationAttr "" = ""
  · rw [if_pos hinit, List.nil_append]
    constructor
    · rw [List.map_map]
      refine List.pairwise_map.mpr ((List.pairwise_lt_range _).imp ?_)
      intro k1 k2 hk
      show s + (k1 : Int) < s + (k2 : Int)
      omega
    · intro seg hseg hstype
      obtain ⟨k, hk, rfl⟩ := List.mem_map.mp hseg
      simp at hstype
  · have hs1 : 1 ≤ s := hok.resolve_left hinit
    rw [if_neg hinit, List.singleton_append]
    constructor
    · rw [List.map_cons, List.pairwise_cons]
      constructor
      · intro b hb
        rw [List.map_map] at hb
        obtain ⟨k, hk, rfl⟩ := List.mem_map.mp hb
        show (0 : Int) < s + (k : Int)
        omega
      · rw [List.map_map]
        refine List.pairwise_map.mpr ((List.pairwise_lt_range _).imp ?_)
        intro k1 k2 hk
        show s + (k1 : Int) < s + (k2 : Int)
        omega
    · intro seg hseg hstype
      rcases List.mem_cons.mp hseg with rfl | hseg'
      · refine ⟨rfl, rfl, ?_⟩
        intro seg2 hseg2
        obtain ⟨k, hk, rfl⟩ := List.mem_map.mp hseg2
        rfl
      · obtain ⟨k, hk, rfl⟩ := List.mem_map.mp hseg'
        simp at hstype

/-- Witness for `parse_seq_numbers_strict`, instantiated on the example
manifest whose start number is 1. -/
theorem parse_seq_numbers_strict_witness :
    ((1 : Int) ≤ 1 ∧ parsePlaylistXML docC3 "http://b/" = Except.ok mC3)
    ∧ ((mC3.segments.map (fun seg => seg.number)).Pairwise (fun a b => a < b)
      ∧ ∀ seg ∈ mC3.segments, seg.type = SegmentType.init →
          seg.number = 0 ∧ mC3.segments.head? = some seg
            ∧ ∀ seg2 ∈ mC3.segments.tail, seg2.type = SegmentType.media) :=
  ⟨⟨le_refl 1, parse_docC3_eq⟩,
   parse_seq_numbers_strict docC3 "http://b/" stC3 1000 1000 1 mC3 rfl (by decide) (by decide)
     (by decide) parse_docC3_eq (Or.inr (le_refl 1))⟩

/-- C9: the streaming relay writes to the sink exactly the successful
payloads concatenated in manifest list order; under an ascending manifest the
written segment numbers are nondecreasing, so bytes never appear out of
sequence order, and a failing segment is simply dropped from the output while
the relay continues. -/
theorem stream_relay_manifest_order (fetch : FetchOracle) (segments : List AudioSegment) :
    streamSegments fetch segments = (segments.filterMap fetch).flatten
    ∧ ((segments.map (fun seg => seg.number)).Pairwise (fun a b => a ≤ b) →
        ((segments.filter (fun seg => (fetch seg).isSome)).map (fun seg => seg.number)).Pairwise
          (fun a b => a ≤ b))
    ∧ ∀ pre seg post, segments = pre ++ seg :: post → fetch seg = none →
        streamSegments fetch segments = streamSegments fetch (pre ++ post) := by
  refine ⟨streamSegments_spec fetch segments, ?_, ?_⟩
  · intro hsorted
    rw [List.pairwise_map] at hsorted ⊢
    exact hsorted.sublist (List.filter_sublist _)
  · intro pre seg post hsegs hfail
    subst hsegs
    rw [streamSegments_spec, streamSegments_spec]
    simp [List.filterMap_append, List.filterMap_cons, hfail]

/-- Witness for `stream_relay_manifest_order`: three ascending segments with
the middle fetch failing. -/
theorem stream_relay_manifest_order_witness :
    (([segA, segB, segC].map (fun seg => seg.number)).Pairwise (fun a b => a ≤ b)
      ∧ [segA, segB, segC] = [segA] ++ segB :: [segC]
      ∧ oracleC9 segB = none)
    ∧ (([segA, segB, segC].filter (fun seg => (oracleC9 seg).isSome)).map
          (fun seg => seg.number)).Pairwise (fun a b => a ≤ b)
    ∧ streamSegments oracleC9 [segA, segB, segC] = streamSegments oracleC9 ([segA] ++ [segC]) :=
  ⟨⟨by decide, rfl, by decide⟩,
   (stream_relay_manifest_order oracleC9 [segA, segB, segC]).2.1 (by decide),
   (stream_relay_manifest_order oracleC9 [segA, segB, segC]).2.2 [segA] segB [segC] rfl
     (by decide)⟩

/-- C10: for every parsed manifest (with integer attributes) with a non-empty
initialization template, the Initialization segment URL is the base URL
concatenated with the template in which only the representation placeholder
is replaced by 0; when the template contains a sequence placeholder and no
representation placeholder, the sequence placeholder survives verbatim in the
generated URL. -/
theorem init_url_substitution (doc : XmlDoc) (fb : String) (st : SegmentTemplateEl)
    (d t s : Int) (m : PlaylistInfo)
    (hst : doc.segmentTemplate = some st)
    (hd : jsParseInt (attrOr st.duration "0") = some d)
    (ht : jsParseInt (attrOr st.timescale "1") = some t)
    (hs : jsParseInt (attrOr st.startNumber "1") = some s)
    (hm : parsePlaylistXML doc fb = Except.ok m)
    (hinit : attrOr st.initializationAttr "" ≠ "") :
    m.segments.head?
      = some ⟨SegmentType.init, initSegmentUrl m.baseUrl (attrOr st.initializationAttr ""), 0⟩
    ∧ ∀ a b : String, attrOr st.initializationAttr "" = a ++ "$Number$" ++ b →
        ¬ List.IsInfix "$RepresentationID$".data (attrOr st.initializationAttr "").data →
        m.segments.head?
          = some ⟨SegmentType.init, m.baseUrl ++ (a ++ "$Number$" ++ b), 0⟩ := by
  rw [parse_ok_main doc st d t s fb hst hd ht hs] at hm
  injection hm with h
  subst h
  constructor
  · rw [if_neg hinit]
    rfl
  · intro a b hab hR
    have hurl : initSegmentUrl (attrOr doc.baseURL fb) (attrOr st.initializationAttr "")
        = attrOr doc.baseURL fb ++ (a ++ "$Number$" ++ b) := by
      show attrOr doc.baseURL fb
          ++ replaceFirst "$RepresentationID$" "0" (attrOr st.initializationAttr "")
        = attrOr doc.baseURL fb ++ (a ++ "$Number$" ++ b)
      rw [replaceFirst_no_occurrence _ hR, hab]
    rw [if_neg hinit, List.singleton_append]
    show some (⟨SegmentType.init,
        initSegmentUrl (attrOr doc.baseURL fb) (attrOr st.initializationAttr ""),
        0⟩ : AudioSegment)
      = some ⟨SegmentType.init, attrOr doc.baseURL fb ++ (a ++ "$Number$" ++ b), 0⟩
    rw [hurl]

/-- Parsing `docC10` yields exactly the manifest `mC10`. -/
theorem parse_docC10_eq : parsePlaylistXML docC10 "B/" = Except.ok mC10 := by
  rw [parse_ok_main docC10 stC10 1000 1000 1 "B/" rfl
    (by decide) (by decide) (by decide)]
  have e1 : ((1000 : Int) : Rat) / ((1000 : Int) : Rat) = 1 := by norm_num
  have e2 : mpdDuration docC10 = none := rfl
  rw [e1, e2]
  have e3 : (⌈((none : Option Rat).getD 1) / (1 : Rat)⌉ : Int) = 1 := by
    rw [Option.getD_none, div_one, Int.ceil_one]
  rw [e3]
  rfl

/-- Witness for `init_url_substitution`: an initialization template carrying
a sequence placeholder and no representation placeholder. -/
theorem init_url_substitution_witness :
    (docC10.segmentTemplate = some stC10
      ∧ parsePlaylistXML docC10 "B/" = Except.ok mC10
      ∧ attrOr stC10.initializationAttr "" ≠ ""
      ∧ attrOr stC10.initializationAttr "" = "i-" ++ "$Number$" ++ "-x.mp4"
      ∧ ¬ List.IsInfix "$RepresentationID$".data (attrOr stC10.initializationAttr "").data)
    ∧ mC10.segments.head?
      = some ⟨SegmentType.init, mC10.baseUrl ++ ("i-" ++ "$Number$" ++ "-x.mp4"), 0⟩ :=
  ⟨⟨rfl, parse_docC10_eq, by decide, by decide, by decide⟩,
   (init_url_substitution docC10 "B/" stC10 1000 1000 1 mC10 rfl (by decide) (by decide)
       (by decide) parse_docC10_eq (by decide)).2 "i-" "-x.mp4" (by decide) (by decide)⟩

end Scraper
